import Mathlib

/-!
# Givegram frontend controller — shallow embedding

A shallow embedding of `src/frontend/js/app.js` (the single-page controller
of the Givegram giveaway picker). The browser world is modelled explicitly:

* `AppState` mirrors the mutable `state` object of the script;
* `Storage` mirrors the two `localStorage` keys (`givegram_session_cookie`
  and `givegram_session_id`);
* `Screen` mirrors which screen section is currently active;
* error paragraphs are modelled as `Option String` (`none` = hidden);
* every `apiPost` call is appended to an `apiCalls` log, and the outcome of
  each network call is an explicit `Except JsError _` parameter of the
  embedded function (the event loop is single-threaded, so each handler is
  a pure `World → World` function once its network outcomes are fixed);
* the reveal animation is recorded as a `List Phase` trace.

`Math.random()` draws of the Fisher–Yates shuffle are modelled by a
function `rand : Nat → Nat`; the draw at loop index `i` is `rand i % (i+1)`,
matching `Math.floor(Math.random() * (i + 1)) ∈ [0, i]`.
-/

namespace Givegram

/-- A commenter record as returned by `/api/fetch-comments`
(`{handle, commentCount}` in the backend contract; the frontend passes it
through opaquely). -/
structure Participant where
  username : String
  comments : Nat
deriving DecidableEq, Repr

/-- Errors thrown inside the handlers: `ApiError` (from `apiPost`, carrying
the HTTP status) versus any other thrown error (network failure, abort). -/
inductive JsError where
  | apiError (message : String) (status : Nat)
  | otherError (message : String)
deriving DecidableEq, Repr

/-- `err.message` of a thrown error. -/
def JsError.message : JsError → String
  | .apiError m _ => m
  | .otherError m => m

/-- `err instanceof ApiError && err.status === 401` (app.js:308, 345, 885). -/
def JsError.is401 : JsError → Bool
  | .apiError _ s => s == 401
  | .otherError _ => false

/-- Whether a call outcome is an `ApiError` with HTTP status 401. -/
def respIs401 {α : Type} : Except JsError α → Bool
  | .error e => e.is401
  | .ok _ => false

/-- Response body of `/api/fetch-comments`: `{users, total_comments}`. -/
structure FetchData where
  users : List Participant
  total_comments : Nat
deriving DecidableEq, Repr

/-- One network request issued through `apiPost`, with its payload. -/
inductive ApiCall where
  | login (session_cookie : String)
  | logout (session_id : String)
  | validateSession (session_id : String)
  | fetchComments (url : String) (session_id : Option String)
  | pickWinners (users : List Participant) (num_winners min_comments : Nat)
deriving DecidableEq, Repr

/-- The mutable `state` object (app.js:101-114). -/
structure AppState where
  sessionId : Option String
  users : List Participant
  totalComments : Nat
  numWinners : Nat
  minComments : Nat
  winners : List String
deriving DecidableEq, Repr

/-- The two localStorage keys: `givegram_session_cookie` and
`givegram_session_id` (app.js:230-233). `none` = key absent. -/
structure Storage where
  cookie : Option String
  savedSessionId : Option String
deriving DecidableEq, Repr

/-- The five screen sections, plus the initial loading indicator. -/
inductive Screen where
  | loading
  | login
  | pasteLink
  | settings
  | searching
  | results
deriving DecidableEq, Repr

/-- One phase of the reveal animation trace: winner `i`'s countdown, or
winner `i`'s reveal showing a username and a congratulatory message. -/
inductive Phase where
  | countdown (i : Nat)
  | reveal (i : Nat) (username : String) (congrats : String)
deriving DecidableEq, Repr

/-- The whole observable browser world acted on by the handlers. -/
structure World where
  state : AppState
  storage : Storage
  screen : Screen
  loginError : Option String
  urlError : Option String
  settingsError : Option String
  winnersList : List String
  apiCalls : List ApiCall
  animTrace : List Phase
deriving DecidableEq, Repr

/-- Append one issued request to the network log (each `apiPost`). -/
def logCall (w : World) (c : ApiCall) : World :=
  { w with apiCalls := w.apiCalls ++ [c] }

/-- `navigateTo` (app.js:127-142): only the active screen changes. -/
def navigateTo (w : World) (s : Screen) : World :=
  { w with screen := s }

/-- The message catalog `CONGRATS_MESSAGES` (app.js:30-41). -/
def CONGRATS_MESSAGES : List String :=
  ["Congratulations!",
   "You\x27re a winner!",
   "Lucky you!",
   "What a pick!",
   "Amazing!",
   "Incredible!",
   "Well deserved!",
   "You did it!",
   "Brilliant!",
   "Fantastic!"]

/-- `String.prototype.trim`: strip leading and trailing whitespace
(computable embedding of the JS built-in, used on the form inputs). -/
def jsTrim (s : String) : String :=
  ⟨((s.toList.dropWhile Char.isWhitespace).reverse.dropWhile
      Char.isWhitespace).reverse⟩

/-- Case-insensitive literal match of `pat` (given lowercase) against the
front of `s`; returns the remaining input on success. Implements the
literal pieces of the `i`-flagged regex `INSTAGRAM_URL_RE`. -/
def ciMatch : List Char → List Char → Option (List Char)
  | [], s => some s
  | _ :: _, [] => none
  | p :: ps, c :: cs => if p = c.toLower then ciMatch ps cs else none

/-- A character of the `[\w-]` class: ASCII letter, digit, `_` or `-`. -/
def isSlugChar (c : Char) : Bool :=
  (decide ('a' ≤ c) && decide (c ≤ 'z'))
    || (decide ('A' ≤ c) && decide (c ≤ 'Z'))
    || (decide ('0' ≤ c) && decide (c ≤ '9'))
    || c == '_' || c == '-'

/-- After `instagram.com/`: match `(?:p|reel|tv)\/` then at least one
`[\w-]` character (the regex has no end anchor, so anything may follow). -/
def matchKind (s : List Char) : Bool :=
  let slug : List Char → Bool
    | [] => false
    | c :: _ => isSlugChar c
  match ciMatch "p/".toList s with
  | some r => slug r
  | none =>
    match ciMatch "reel/".toList s with
    | some r => slug r
    | none =>
      match ciMatch "tv/".toList s with
      | some r => slug r
      | none => false

/-- `INSTAGRAM_URL_RE.test` (app.js:44-45): the case-insensitive regex
`^https?:\/\/(?:www\.)?instagram\.com\/(?:p|reel|tv)\/[\w-]+\/?`.
The optional pieces (`s?`, `(?:www\.)?`) are matched greedily, which is
equivalent to the regex's backtracking here because each optional piece
starts with a character distinct from what must follow it. -/
def INSTAGRAM_URL_RE_test (s : String) : Bool :=
  match ciMatch "http".toList s.toList with
  | none => false
  | some r1 =>
    let r2 := match ciMatch "s".toList r1 with
      | some r => r
      | none => r1
    match ciMatch "://".toList r2 with
    | none => false
    | some r3 =>
      let r4 := match ciMatch "www.".toList r3 with
        | some r => r
        | none => r3
      match ciMatch "instagram.com/".toList r4 with
      | none => false
      | some r5 => matchKind r5

/- ===== Session expiry & transparent re-authentication ===== -/

/-- `tryReauthenticate` (app.js:296-316): re-login with the saved cookie.
`loginResp` is the outcome of the `/api/login` call (unused when no cookie
is saved, since then no call is made). Returns the updated world and the
boolean result. -/
def tryReauthenticate (w : World) (loginResp : Except JsError String) :
    World × Bool :=
  match w.storage.cookie with
  | none => (w, false)
  | some savedCookie =>
    let w := logCall w (.login savedCookie)
    match loginResp with
    | .ok sid =>
      ({ w with
          state := { w.state with sessionId := some sid },
          storage := { w.storage with savedSessionId := some sid } }, true)
    | .error e =>
      if e.is401 then
        ({ w with storage := { cookie := none, savedSessionId := none } },
         false)
      else
        (w, false)

/-- `redirectToLogin` (app.js:326-331): drop the in-memory session and the
persisted session id (not the cookie), show the login screen with a
message. -/
def redirectToLogin (w : World) (message : String) : World :=
  let w := { w with
    state := { w.state with sessionId := none },
    storage := { w.storage with savedSessionId := none } }
  let w := navigateTo w .login
  { w with loginError := some message }

/-- Result of `handleSessionExpiry` (app.js:339-342). -/
inductive ExpiryResult where
  | notSessionError
  | reauthenticated
  | redirected
deriving DecidableEq, Repr

/-- `handleSessionExpiry` (app.js:344-361): on a 401 `ApiError`, attempt
transparent re-authentication; otherwise report `notSessionError`.
`loginResp` is the outcome of the `/api/login` call that
`tryReauthenticate` may issue. -/
def handleSessionExpiry (w : World) (err : JsError)
    (loginResp : Except JsError String) : World × ExpiryResult :=
  if !err.is401 then
    (w, .notSessionError)
  else
    let p := tryReauthenticate w loginResp
    if p.2 then
      (p.1, .reauthenticated)
    else
      let msg := match p.1.storage.cookie with
        | some _ => "Could not reconnect to Instagram. Please try again."
        | none => "Your session cookie has expired. Please paste a new one."
      (redirectToLogin p.1 msg, .redirected)

/- ===== Screen 0 — Login ===== -/

/-- `handleLogin` (app.js:374-404): validate the cookie input, call
`/api/login`, and on success store the session id, persist cookie and
session id, and advance to the paste-link screen. `cookieInput` is the
value of the cookie text field; `loginResp` the outcome of the call. -/
def handleLogin (w : World) (cookieInput : String)
    (loginResp : Except JsError String) : World :=
  let w := { w with loginError := none }
  let sessionCookie := jsTrim cookieInput
  if sessionCookie = "" then
    { w with loginError := some "Please paste your Instagram session cookie." }
  else
    let w := logCall w (.login sessionCookie)
    match loginResp with
    | .ok sid =>
      let w := { w with
        state := { w.state with sessionId := some sid },
        storage := { cookie := some sessionCookie, savedSessionId := some sid } }
      navigateTo w .pasteLink
    | .error e =>
      { w with loginError := some e.message }

/-- `handleLogout` (app.js:410-423): best-effort server invalidation, then
unconditional local cleanup. `logoutResp` is the outcome of the
`/api/logout` call (issued only when a session id is in memory; its
failure is swallowed). -/
def handleLogout (w : World) (logoutResp : Except JsError Unit) : World :=
  let w := match w.state.sessionId with
    | some sid =>
      let w := logCall w (.logout sid)
      match logoutResp with
      | .ok _ => w
      | .error _ => w
    | none => w
  let w := { w with
    state := { w.state with sessionId := none },
    storage := { cookie := none, savedSessionId := none } }
  navigateTo w .login

/- ===== Screen 1 — Paste Link ===== -/

/-- `handleFetchComments` (app.js:436-492): validate the pasted URL
locally, then call `/api/fetch-comments`; on a 401, run the session-expiry
recovery and, if it reauthenticated, retry the same fetch exactly once.
`urlInput` is the value of the URL field; `fetchResp` the outcome of the
first `/api/fetch-comments` call, `loginResp` the outcome of the
`/api/login` call a recovery may issue, `retryResp` the outcome of the
retried fetch (each unused when its call is not issued). -/
def handleFetchComments (w : World) (urlInput : String)
    (fetchResp : Except JsError FetchData)
    (loginResp : Except JsError String)
    (retryResp : Except JsError FetchData) : World :=
  let w := { w with urlError := none }
  let url := jsTrim urlInput
  if url = "" then
    { w with urlError := some "Please paste an Instagram link." }
  else if !INSTAGRAM_URL_RE_test url then
    { w with
      urlError := some "That doesn\x27t look like a valid Instagram post URL." }
  else
    let w := logCall w (.fetchComments url w.state.sessionId)
    match fetchResp with
    | .ok d =>
      navigateTo
        { w with state := { w.state with
            users := d.users, totalComments := d.total_comments } }
        .settings
    | .error err =>
      let p := handleSessionExpiry w err loginResp
      match p.2 with
      | .reauthenticated =>
        let w := logCall p.1 (.fetchComments url p.1.state.sessionId)
        match retryResp with
        | .ok d =>
          navigateTo
            { w with state := { w.state with
                users := d.users, totalComments := d.total_comments } }
            .settings
        | .error retryErr =>
          { w with urlError := some retryErr.message }
      | .notSessionError =>
        { p.1 with urlError := some err.message }
      | .redirected => p.1

/- ===== Screen 3 — Searching animation ===== -/

/-- Swap the elements at positions `i` and `j`
(`[pool[i], pool[j]] = [pool[j], pool[i]]`, app.js:574); out-of-range
indices (unreachable in the source loop) leave the list unchanged. -/
def listSwap {α : Type} (l : List α) (i j : Nat) : List α :=
  if h : i < l.length ∧ j < l.length then
    (l.set i (l.get ⟨j, h.2⟩)).set j (l.get ⟨i, h.1⟩)
  else l

/-- The Fisher–Yates loop of `shuffleCongratsMessages` (app.js:572-576):
`for (let i = pool.length - 1; i > 0; i--)` with
`j = Math.floor(Math.random() * (i + 1))`, modelled as `rand i % (i + 1)`. -/
def fyLoop (rand : Nat → Nat) : Nat → List String → List String
  | 0, pool => pool
  | k + 1, pool => fyLoop rand k (listSwap pool (k + 1) (rand (k + 1) % (k + 2)))

/-- `shuffleCongratsMessages` (app.js:570-577): a Fisher–Yates shuffle of a
copy of `CONGRATS_MESSAGES`, driven by the draws `rand`. -/
def shuffleCongratsMessages (rand : Nat → Nat) : List String :=
  fyLoop rand (CONGRATS_MESSAGES.length - 1) CONGRATS_MESSAGES

/-- The body of the `for` loop of `runSearchingAnimation` (app.js:639-650):
for each winner, a countdown phase, then a reveal phase showing the winner
and `congratsPool[i % congratsPool.length]`. `i` is the loop index for the
head of `ws`. -/
def animLoop (pool : List String) : List String → Nat → List Phase
  | [], _ => []
  | u :: rest, i =>
    .countdown i :: .reveal i u (pool.getD (i % pool.length) "")
      :: animLoop pool rest (i + 1)

/-- `runSearchingAnimation` (app.js:636-654): shuffle the message pool,
then run countdown + reveal for each winner in order; the result is the
trace of phases in execution order. -/
def runSearchingAnimation (winners : List String) (rand : Nat → Nat) :
    List Phase :=
  let congratsPool := shuffleCongratsMessages rand
  animLoop congratsPool winners 0

/- ===== Screens 2 & 4 — Run giveaway, results, run again ===== -/

/-- `showResults` (app.js:709-744): render the winner cards and navigate
to the results screen. -/
def showResults (w : World) (winners : List String) : World :=
  navigateTo { w with winnersList := winners } .results

/-- `handleRunGiveaway` (app.js:537-558): call `/api/pick-winners` with the
stored users and settings; on success store the winners, run the full
reveal animation (recorded in `animTrace`), then show the results; on
failure surface the error on the settings screen. `pickResp` is the
outcome of the call, `rand` drives the message shuffle. -/
def handleRunGiveaway (w : World) (pickResp : Except JsError (List String))
    (rand : Nat → Nat) : World :=
  let w := { w with settingsError := none }
  let w := logCall w
    (.pickWinners w.state.users w.state.numWinners w.state.minComments)
  match pickResp with
  | .ok winners =>
    let w := { w with state := { w.state with winners := winners } }
    let w := navigateTo w .searching
    let w := { w with animTrace := w.animTrace ++ runSearchingAnimation winners rand }
    showResults w winners
  | .error e =>
    { w with settingsError := some e.message }

/-- `handleRunAgain` (app.js:788-810): reset the giveaway state to its
defaults, clear the URL input, the URL and settings errors and the winner
cards, and navigate back to the paste-link screen; the session (in memory
and persisted) is untouched. -/
def handleRunAgain (w : World) : World :=
  let w := { w with state := { w.state with
    users := [], totalComments := 0, numWinners := 1, minComments := 1,
    winners := [] } }
  let w := { w with
    urlError := none
    settingsError := none
    winnersList := [] }
  navigateTo w .pasteLink

/- ===== Startup restore (`init`, app.js:820-904) ===== -/

/-- Tier 2 and tier 3 of the startup restore (app.js:876-903): if a cookie
was saved, re-login with it — on success adopt and persist the new session
id; on a 401 clear both stored values and show the login screen with a
message; on any other failure keep the stored credential and show the
login screen without one. With no saved cookie, just show the login
screen. -/
def initTier2 (w : World) (savedCookie : Option String)
    (loginResp : Except JsError String) : World :=
  match savedCookie with
  | some cookie =>
    let w := logCall w (.login cookie)
    match loginResp with
    | .ok sid =>
      navigateTo
        { w with
            state := { w.state with sessionId := some sid },
            storage := { w.storage with savedSessionId := some sid } }
        .pasteLink
    | .error err =>
      if err.is401 then
        let w := { w with storage := { cookie := none, savedSessionId := none } }
        let w := navigateTo w .login
        { w with
          loginError :=
            some "Your saved session has expired. Please paste a new cookie." }
      else
        navigateTo w .login
  | none => navigateTo w .login

/-- The session-restore part of `init` (app.js:860-904): tier 1 validates
a saved backend session id via `/api/validate-session` and adopts it on
success; on failure the stale id is cleared and tier 2 (`initTier2`) runs.
`validateResp` is the outcome of the `/api/validate-session` call and
`loginResp` the outcome of the `/api/login` call (each unused when its
call is not issued). -/
def init (w : World) (validateResp : Except JsError Unit)
    (loginResp : Except JsError String) : World :=
  let savedSessionId := w.storage.savedSessionId
  let savedCookie := w.storage.cookie
  match savedSessionId with
  | some sid =>
    let w1 := logCall w (.validateSession sid)
    match validateResp with
    | .ok _ =>
      navigateTo { w1 with state := { w1.state with sessionId := some sid } }
        .pasteLink
    | .error _ =>
      let w2 := { w1 with storage := { w1.storage with savedSessionId := none } }
      initTier2 w2 savedCookie loginResp
  | none => initTier2 w savedCookie loginResp

/-- A sequence of startups: fold `init` over a list of per-startup network
outcomes (validate outcome, login outcome). -/
def initSeq (w : World)
    (rs : List (Except JsError Unit × Except JsError String)) : World :=
  rs.foldl (fun w r => init w r.1 r.2) w

/- ===== Spec abstraction: the Run Controller state machine ===== -/

/-- Modelled from the spec: the `RunState` values of §3 / §4.2 (the source
keeps no such enum; the run state is implicit in the active screen). -/
inductive RunState where
  | Idle
  | AwaitingComments
  | Settings
  | AwaitingSelection
  | Revealing
  | Results
deriving DecidableEq, Repr

/-- Modelled from the spec: the abstraction map from the concrete active
screen to the §4.2 `RunState`. The quiescent `Idle` state (no run in
flight) covers the screens where a post reference has not yet been
submitted — the login and paste-link screens (§4.2 notes that on failed
recovery "the Session Manager has already redirected to the login state"
while the table row reads "→ Idle with error surfaced"). -/
def runStateOfScreen : Screen → RunState
  | .loading => .Idle
  | .login => .Idle
  | .pasteLink => .Idle
  | .settings => .Settings
  | .searching => .Revealing
  | .results => .Results

/-- Whether a phase of the animation trace is a countdown phase. -/
def Phase.isCountdown : Phase → Bool
  | .countdown _ => true
  | .reveal .. => false

/-- Whether a phase of the animation trace is a reveal phase. -/
def Phase.isReveal : Phase → Bool
  | .countdown _ => false
  | .reveal .. => true

/- ===== Sample worlds for witnesses and counterexamples ===== -/

/-- A concrete world: logged in, participants fetched, on the results
screen with a stale login-error text left over. -/
def wSample : World :=
  { state := { sessionId := some "sid-0", users := [⟨"ann", 3⟩, ⟨"bob", 1⟩],
               totalComments := 4, numWinners := 2, minComments := 2,
               winners := ["ann"] },
    storage := { cookie := some "cookie-0", savedSessionId := some "sid-0" },
    screen := .results,
    loginError := some "old login error",
    urlError := some "old url error",
    settingsError := some "old settings error",
    winnersList := ["ann"],
    apiCalls := [],
    animTrace := [] }

/- ====================================================================
   Theorems
   ==================================================================== -/

/-- C9: for every error value that is not an `ApiError` with HTTP status
401, `handleSessionExpiry` returns `"not_session_error"` and performs no
network call and no mutation — the returned world is the input world
unchanged (in particular the in-memory session id, the persisted
credential, the persisted session handle and the call log are untouched). -/
theorem claim9_non_401_is_noop (w : World) (err : JsError)
    (lr : Except JsError String) (h : err.is401 = false) :
    handleSessionExpiry w err lr = (w, ExpiryResult.notSessionError) := by
  simp [handleSessionExpiry, h]

/-- Witness for C9 at a concrete transient error. -/
theorem claim9_witness :
    (JsError.otherError "network down").is401 = false ∧
    handleSessionExpiry wSample (JsError.otherError "network down")
        (Except.error (JsError.otherError "x"))
      = (wSample, ExpiryResult.notSessionError) :=
  ⟨by decide,
   claim9_non_401_is_noop wSample (JsError.otherError "network down")
     (Except.error (JsError.otherError "x")) (by decide)⟩

/-- C7 (counterexample): the claim says "run again" clears *all* error
text, but the login screen's error text survives `handleRunAgain`: in the
concrete world `wSample`, which carries the login-error text
"old login error", the text is still present afterwards. -/
theorem claim7_counterexample :
    (handleRunAgain wSample).loginError = some "old login error" := by
  decide

/-- C7 (amended): the "run again" action resets `numWinners` and
`minComments` to 1, clears the participant set, total comment count,
winner list, rendered winner cards, and the URL and settings error text
(the login screen's error text is not touched), issues no network call,
and leaves the current `SessionHandle` — `state.sessionId` and both
persisted values — unchanged, returning to the paste-link screen. -/
theorem claim7_run_again_resets (w : World) :
    (handleRunAgain w).state.numWinners = 1 ∧
    (handleRunAgain w).state.minComments = 1 ∧
    (handleRunAgain w).state.users = [] ∧
    (handleRunAgain w).state.totalComments = 0 ∧
    (handleRunAgain w).state.winners = [] ∧
    (handleRunAgain w).urlError = none ∧
    (handleRunAgain w).settingsError = none ∧
    (handleRunAgain w).winnersList = [] ∧
    (handleRunAgain w).state.sessionId = w.state.sessionId ∧
    (handleRunAgain w).storage = w.storage ∧
    (handleRunAgain w).apiCalls = w.apiCalls ∧
    (handleRunAgain w).screen = Screen.pasteLink := by
  simp [handleRunAgain, navigateTo]

/-- C10: on an empty `WinnerList`, `runSearchingAnimation` performs zero
countdown phases and zero reveal phases (an empty trace) and
`handleRunGiveaway` completes normally: it proceeds to the results screen
with an empty winners display and no error. -/
theorem claim10_empty_winner_list (w : World) (rand : Nat → Nat) :
    runSearchingAnimation [] rand = [] ∧
    (handleRunGiveaway w (Except.ok []) rand).screen = Screen.results ∧
    (handleRunGiveaway w (Except.ok []) rand).state.winners = [] ∧
    (handleRunGiveaway w (Except.ok []) rand).winnersList = [] ∧
    (handleRunGiveaway w (Except.ok []) rand).animTrace = w.animTrace ∧
    (handleRunGiveaway w (Except.ok []) rand).settingsError = none := by
  simp [runSearchingAnimation, animLoop, handleRunGiveaway, showResults,
    navigateTo, logCall]

/-- C8: for every input whose trimmed value does not match the Instagram
URL shape, the comment-fetch submission issues no network call (the call
log is unchanged), surfaces a validation error synchronously, and leaves
the application state, the storage and the active screen unchanged —
whatever the (never-consulted) network outcomes would have been. -/
theorem claim8_malformed_url_is_local (w : World) (input : String)
    (r1 : Except JsError FetchData) (lr : Except JsError String)
    (r2 : Except JsError FetchData)
    (h : INSTAGRAM_URL_RE_test (jsTrim input) = false) :
    (handleFetchComments w input r1 lr r2).apiCalls = w.apiCalls ∧
    (∃ msg, (handleFetchComments w input r1 lr r2).urlError = some msg) ∧
    (handleFetchComments w input r1 lr r2).state = w.state ∧
    (handleFetchComments w input r1 lr r2).storage = w.storage ∧
    (handleFetchComments w input r1 lr r2).screen = w.screen := by
  by_cases he : jsTrim input = "" <;>
    simp [handleFetchComments, he, h]

/-- Witness for C8 at the spec's own example input `"not-a-url"`. -/
theorem claim8_witness :
    INSTAGRAM_URL_RE_test (jsTrim "not-a-url") = false ∧
    ((handleFetchComments wSample "not-a-url"
        (Except.error (JsError.otherError "x"))
        (Except.error (JsError.otherError "x"))
        (Except.error (JsError.otherError "x"))).apiCalls = wSample.apiCalls ∧
      (∃ msg, (handleFetchComments wSample "not-a-url"
        (Except.error (JsError.otherError "x"))
        (Except.error (JsError.otherError "x"))
        (Except.error (JsError.otherError "x"))).urlError = some msg) ∧
      (handleFetchComments wSample "not-a-url"
        (Except.error (JsError.otherError "x"))
        (Except.error (JsError.otherError "x"))
        (Except.error (JsError.otherError "x"))).state = wSample.state ∧
      (handleFetchComments wSample "not-a-url"
        (Except.error (JsError.otherError "x"))
        (Except.error (JsError.otherError "x"))
        (Except.error (JsError.otherError "x"))).storage = wSample.storage ∧
      (handleFetchComments wSample "not-a-url"
        (Except.error (JsError.otherError "x"))
        (Except.error (JsError.otherError "x"))
        (Except.error (JsError.otherError "x"))).screen = wSample.screen) :=
  ⟨by decide,
   claim8_malformed_url_is_local wSample "not-a-url"
     (Except.error (JsError.otherError "x"))
     (Except.error (JsError.otherError "x"))
     (Except.error (JsError.otherError "x")) (by decide)⟩

/-- C5: if the login call fails (any failure kind, 401 included), the
login handler persists nothing and mutates no persisted state — storage
and the in-memory session id are unchanged; and the credential and the
handle are persisted exactly on success (an empty credential input never
even mutates storage, and a successful login persists the trimmed
credential together with the returned handle). -/
theorem claim5_login_failure_persists_nothing (w : World) (input : String)
    (e : JsError) :
    (handleLogin w input (Except.error e)).storage = w.storage ∧
    (handleLogin w input (Except.error e)).state.sessionId
      = w.state.sessionId ∧
    (∀ lr, jsTrim input = "" → (handleLogin w input lr).storage = w.storage) ∧
    (jsTrim input ≠ "" → ∀ sid,
      (handleLogin w input (Except.ok sid)).storage
        = { cookie := some (jsTrim input), savedSessionId := some sid }) := by
  by_cases he : jsTrim input = "" <;>
    simp [handleLogin, he, logCall, navigateTo]

/-- Witness for C5: a concrete failing login (HTTP 401) and a concrete
successful login. -/
theorem claim5_witness :
    (handleLogin wSample "cookie-A"
        (Except.error (JsError.apiError "Unauthorized" 401))).storage
      = wSample.storage ∧
    (handleLogin wSample "cookie-A" (Except.ok "sid-9")).storage
      = { cookie := some "cookie-A", savedSessionId := some "sid-9" } :=
  ⟨(claim5_login_failure_persists_nothing wSample "cookie-A"
      (JsError.apiError "Unauthorized" 401)).1,
   (claim5_login_failure_persists_nothing wSample "cookie-A"
      (JsError.apiError "Unauthorized" 401)).2.2.2 (by decide) "sid-9"⟩

/-- The tier-2 fallback never touches the stored cookie unless the login
outcome is an explicit 401 `ApiError`. -/
theorem initTier2_cookie (w : World) (sc : Option String)
    (lr : Except JsError String) (h : respIs401 lr = false) :
    (initTier2 w sc lr).storage.cookie = w.storage.cookie := by
  cases sc with
  | none => simp [initTier2, navigateTo]
  | some ck =>
    cases lr with
    | ok sid => simp [initTier2, logCall, navigateTo]
    | error e =>
      simp only [respIs401] at h
      simp [initTier2, logCall, navigateTo, h]

/-- C1: for every re-authentication or startup-restore attempt whose login
outcome is not an explicit 401 `ApiError` (any success, and any
transient/network failure), the persisted credential is left in storage
unchanged — in both `tryReauthenticate` and the tier-2 login of `init`.
Contrapositively, only an explicit 401 response can ever delete it. -/
theorem claim1_non_401_keeps_cookie (w : World) (lr : Except JsError String)
    (vr : Except JsError Unit) (h : respIs401 lr = false) :
    (tryReauthenticate w lr).1.storage.cookie = w.storage.cookie ∧
    (init w vr lr).storage.cookie = w.storage.cookie := by
  constructor
  · cases hc : w.storage.cookie with
    | none => simp [tryReauthenticate, hc]
    | some ck =>
      cases lr with
      | ok sid => simp [tryReauthenticate, hc, logCall]
      | error e =>
        simp only [respIs401] at h
        simp [tryReauthenticate, hc, logCall, h]
  · cases hs : w.storage.savedSessionId with
    | none =>
      have := initTier2_cookie w w.storage.cookie lr h
      simpa [init, hs] using this
    | some sid =>
      cases vr with
      | ok u => simp [init, hs, logCall, navigateTo]
      | error e' =>
        simp only [init, hs, logCall]
        rw [initTier2_cookie _ _ _ h]

/-- Witness for C1 at a concrete transient (network) login failure. -/
theorem claim1_witness :
    respIs401 (α := String) (Except.error (JsError.otherError "net down"))
        = false ∧
    ((tryReauthenticate wSample
        (Except.error (JsError.otherError "net down"))).1.storage.cookie
      = wSample.storage.cookie ∧
    (init wSample (Except.error (JsError.otherError "backend restarted"))
        (Except.error (JsError.otherError "net down"))).storage.cookie
      = wSample.storage.cookie) :=
  ⟨by decide,
   claim1_non_401_keeps_cookie wSample
     (Except.error (JsError.otherError "net down"))
     (Except.error (JsError.otherError "backend restarted")) (by decide)⟩

/-- When the stored session id validates (tier 1), `init` adopts it,
issues only the validate call, and leaves storage untouched. -/
theorem init_validate_ok (w : World) (sid : String)
    (lr : Except JsError String) (h : w.storage.savedSessionId = some sid) :
    (init w (Except.ok ()) lr).apiCalls
        = w.apiCalls ++ [ApiCall.validateSession sid] ∧
    (init w (Except.ok ()) lr).storage = w.storage ∧
    (init w (Except.ok ()) lr).state.sessionId = some sid := by
  simp [init, h, logCall, navigateTo]

/-- C2: across any sequence of startups in which a persisted
`SessionHandle` exists and the validate operation accepts it every time,
`init` only ever issues validate calls (no authenticate/login call is in
the appended log), leaves storage unchanged (so the invariant carries to
the next startup), and adopts the persisted handle as the current
session. -/
theorem claim2_tier1_only_invariant (w : World) (sid : String)
    (rs : List (Except JsError Unit × Except JsError String))
    (h1 : w.storage.savedSessionId = some sid)
    (h2 : ∀ p ∈ rs, p.1 = Except.ok ()) :
    (initSeq w rs).apiCalls
        = w.apiCalls ++ rs.map (fun _ => ApiCall.validateSession sid) ∧
    (initSeq w rs).storage = w.storage ∧
    (rs ≠ [] → (initSeq w rs).state.sessionId = some sid) := by
  induction rs generalizing w with
  | nil => simp [initSeq]
  | cons p rest ih =>
    have hp : p.1 = Except.ok () := h2 p (by simp)
    have hfold : initSeq w (p :: rest) = initSeq (init w p.1 p.2) rest := rfl
    rw [hfold, hp]
    obtain ⟨ha, hs, hid⟩ := init_validate_ok w sid p.2 h1
    obtain ⟨ra, rb, rc⟩ := ih (init w (Except.ok ()) p.2)
      (by rw [hs]; exact h1) (fun q hq => h2 q (by simp [hq]))
    refine ⟨?_, ?_, fun _ => ?_⟩
    · rw [ra, ha]; simp
    · rw [rb, hs]
    · cases rest with
      | nil => simpa [initSeq] using hid
      | cons q qs => exact rc (by simp)

/-- Witness for C2: a concrete two-startup sequence whose validate calls
both succeed. -/
theorem claim2_witness :
    wSample.storage.savedSessionId = some "sid-0" ∧
    ((initSeq wSample
        [(Except.ok (), Except.error (JsError.otherError "never used")),
         (Except.ok (), Except.ok "unused")]).apiCalls
      = wSample.apiCalls ++
        [(Except.ok (), Except.error (JsError.otherError "never used")),
         ((Except.ok () : Except JsError Unit),
           (Except.ok "unused" : Except JsError String))].map
          (fun _ => ApiCall.validateSession "sid-0") ∧
    (initSeq wSample
        [(Except.ok (), Except.error (JsError.otherError "never used")),
         (Except.ok (), Except.ok "unused")]).storage = wSample.storage ∧
    ([(Except.ok (), Except.error (JsError.otherError "never used")),
      ((Except.ok () : Except JsError Unit),
        (Except.ok "unused" : Except JsError String))] ≠
        ([] : List (Except JsError Unit × Except JsError String)) →
      (initSeq wSample
        [(Except.ok (), Except.error (JsError.otherError "never used")),
         (Except.ok (), Except.ok "unused")]).state.sessionId
        = some "sid-0")) :=
  ⟨by decide,
   claim2_tier1_only_invariant wSample "sid-0"
     [(Except.ok (), Except.error (JsError.otherError "never used")),
      (Except.ok (), Except.ok "unused")]
     (by decide) (by intro p hp; fin_cases hp <;> rfl)⟩

/-- C3: when a comment fetch on a valid URL fails with 401 and the
transparent re-authentication succeeds, exactly one retry of the same
fetch (same URL, the refreshed session handle) is issued — the appended
call log is precisely fetch, login, fetch and nothing more, whatever the
retry's outcome (so no second retry is ever attempted even if the retry
fails). If the retry succeeds, the original submission completes in this
same invocation: participants and total are stored and the app moves to
the settings screen; if the retry fails, its error is surfaced in the URL
error text. -/
theorem claim3_reauth_retries_exactly_once (w : World) (input m ck sid : String)
    (r2 : Except JsError FetchData)
    (hurl : INSTAGRAM_URL_RE_test (jsTrim input) = true)
    (hck : w.storage.cookie = some ck) :
    (handleFetchComments w input (Except.error (JsError.apiError m 401))
        (Except.ok sid) r2).apiCalls
      = w.apiCalls ++
        [ApiCall.fetchComments (jsTrim input) w.state.sessionId,
         ApiCall.login ck,
         ApiCall.fetchComments (jsTrim input) (some sid)] ∧
    (∀ d, r2 = Except.ok d →
      (handleFetchComments w input (Except.error (JsError.apiError m 401))
          (Except.ok sid) r2).state.users = d.users ∧
      (handleFetchComments w input (Except.error (JsError.apiError m 401))
          (Except.ok sid) r2).state.totalComments = d.total_comments ∧
      (handleFetchComments w input (Except.error (JsError.apiError m 401))
          (Except.ok sid) r2).screen = Screen.settings) ∧
    (∀ e2, r2 = Except.error e2 →
      (handleFetchComments w input (Except.error (JsError.apiError m 401))
          (Except.ok sid) r2).urlError = some e2.message) := by
  have hne : ¬ jsTrim input = "" := by
    intro h0
    rw [h0] at hurl
    exact absurd hurl (by decide)
  cases r2 with
  | ok d =>
    refine ⟨?_, ?_, ?_⟩
    · simp [handleFetchComments, hne, hurl, handleSessionExpiry,
        tryReauthenticate, hck, logCall, navigateTo, JsError.is401]
    · intro d' hd'
      injection hd' with hd'
      subst hd'
      refine ⟨?_, ?_, ?_⟩ <;>
        simp [handleFetchComments, hne, hurl, handleSessionExpiry,
          tryReauthenticate, hck, logCall, navigateTo, JsError.is401]
    · intro e2 he2
      exact absurd he2 (by simp)
  | error e2 =>
    refine ⟨?_, ?_, ?_⟩
    · simp [handleFetchComments, hne, hurl, handleSessionExpiry,
        tryReauthenticate, hck, logCall, navigateTo, JsError.is401]
    · intro d' hd'
      exact absurd hd' (by simp)
    · intro e2' he2'
      injection he2' with he2'
      subst he2'
      simp [handleFetchComments, hne, hurl, handleSessionExpiry,
        tryReauthenticate, hck, logCall, navigateTo, JsError.is401]

/-- Witness for C3: a concrete 401 fetch, successful re-login, and
successful retry. -/
theorem claim3_witness :
    INSTAGRAM_URL_RE_test (jsTrim "https://instagram.com/p/abc") = true ∧
    wSample.storage.cookie = some "cookie-0" ∧
    (handleFetchComments wSample "https://instagram.com/p/abc"
        (Except.error (JsError.apiError "Session expired" 401))
        (Except.ok "sid-1")
        (Except.ok ⟨[⟨"u1", 2⟩], 5⟩)).apiCalls
      = wSample.apiCalls ++
        [ApiCall.fetchComments (jsTrim "https://instagram.com/p/abc")
           wSample.state.sessionId,
         ApiCall.login "cookie-0",
         ApiCall.fetchComments (jsTrim "https://instagram.com/p/abc")
           (some "sid-1")] ∧
    (handleFetchComments wSample "https://instagram.com/p/abc"
        (Except.error (JsError.apiError "Session expired" 401))
        (Except.ok "sid-1")
        (Except.ok ⟨[⟨"u1", 2⟩], 5⟩)).state.users = [⟨"u1", 2⟩] ∧
    (handleFetchComments wSample "https://instagram.com/p/abc"
        (Except.error (JsError.apiError "Session expired" 401))
        (Except.ok "sid-1")
        (Except.ok ⟨[⟨"u1", 2⟩], 5⟩)).screen = Screen.settings := by
  have h := claim3_reauth_retries_exactly_once wSample
    "https://instagram.com/p/abc" "Session expired" "cookie-0" "sid-1"
    (Except.ok ⟨[⟨"u1", 2⟩], 5⟩) (by decide) (by decide)
  exact ⟨by decide, by decide, h.1, (h.2.1 ⟨[⟨"u1", 2⟩], 5⟩ rfl).1,
    (h.2.1 ⟨[⟨"u1", 2⟩], 5⟩ rfl).2.2⟩

/-- C4: when a comment fetch on a valid URL reports 401 and the recovery
does not succeed (no saved cookie, or the recovery login itself fails),
the controller ends in the spec's `Idle` run state (concretely: the
login screen, where no run is in flight) with an error message surfaced,
and in no other run state. -/
theorem claim4_failed_recovery_idle (w : World) (input m : String)
    (lr : Except JsError String) (r2 : Except JsError FetchData)
    (hurl : INSTAGRAM_URL_RE_test (jsTrim input) = true)
    (hfail : w.storage.cookie = none ∨ ∃ e, lr = Except.error e) :
    runStateOfScreen (handleFetchComments w input
        (Except.error (JsError.apiError m 401)) lr r2).screen
      = RunState.Idle ∧
    ∃ msg, (handleFetchComments w input
        (Except.error (JsError.apiError m 401)) lr r2).loginError = some msg := by
  have hne : ¬ jsTrim input = "" := by
    intro h0
    rw [h0] at hurl
    exact absurd hurl (by decide)
  rcases hfail with hc | ⟨e, he⟩
  · constructor <;>
      simp [handleFetchComments, hne, hurl, handleSessionExpiry,
        tryReauthenticate, hc, redirectToLogin, logCall, navigateTo,
        JsError.is401, runStateOfScreen]
  · subst he
    cases hc : w.storage.cookie with
    | none =>
      constructor <;>
        simp [handleFetchComments, hne, hurl, handleSessionExpiry,
          tryReauthenticate, hc, redirectToLogin, logCall, navigateTo,
          JsError.is401, runStateOfScreen]
    | some ck =>
      cases e with
      | otherError msg =>
        constructor <;>
          simp [handleFetchComments, hne, hurl, handleSessionExpiry,
            tryReauthenticate, hc, redirectToLogin, logCall, navigateTo,
            JsError.is401, runStateOfScreen]
      | apiError msg st =>
        cases h401 : (st == 401) <;>
          constructor <;>
            simp [handleFetchComments, hne, hurl, handleSessionExpiry,
              tryReauthenticate, hc, h401, redirectToLogin, logCall,
              navigateTo, JsError.is401, runStateOfScreen]

/-- Witness for C4: a concrete 401 fetch whose recovery login fails
transiently. -/
theorem claim4_witness :
    INSTAGRAM_URL_RE_test (jsTrim "https://instagram.com/p/abc") = true ∧
    (runStateOfScreen (handleFetchComments wSample "https://instagram.com/p/abc"
        (Except.error (JsError.apiError "Session expired" 401))
        (Except.error (JsError.otherError "net down"))
        (Except.error (JsError.otherError "unused"))).screen
      = RunState.Idle ∧
    ∃ msg, (handleFetchComments wSample "https://instagram.com/p/abc"
        (Except.error (JsError.apiError "Session expired" 401))
        (Except.error (JsError.otherError "net down"))
        (Except.error (JsError.otherError "unused"))).loginError = some msg) :=
  ⟨by decide,
   claim4_failed_recovery_idle wSample "https://instagram.com/p/abc"
     "Session expired" (Except.error (JsError.otherError "net down"))
     (Except.error (JsError.otherError "unused")) (by decide)
     (Or.inr ⟨JsError.otherError "net down", rfl⟩)⟩

/-- Pulling the `k`-th element to the front while writing `x` into its
place is a permutation of putting `x` on the front. -/
theorem cons_set_perm {α : Type} (t : List α) : ∀ (k : Nat) (hk : k < t.length)
    (x : α), List.Perm (t.get ⟨k, hk⟩ :: t.set k x) (x :: t) := by
  induction t with
  | nil => intro k hk x; simp at hk
  | cons y s ih =>
    intro k hk x
    cases k with
    | zero => simpa using List.Perm.swap x y s
    | succ k =>
      have hk' : k < s.length := by simpa using hk
      have h1 : List.Perm (s.get ⟨k, hk'⟩ :: y :: s.set k x)
          (y :: s.get ⟨k, hk'⟩ :: s.set k x) := List.Perm.swap _ _ _
      have h2 := (ih k hk' x).cons y
      have h3 : List.Perm (y :: x :: s) (x :: y :: s) := List.Perm.swap _ _ _
      simpa using (h1.trans h2).trans h3

/-- Writing two positions into each other (the in-place swap) is a
permutation. -/
theorem set_set_perm {α : Type} (l : List α) : ∀ (i j : Nat)
    (hi : i < l.length) (hj : j < l.length),
    List.Perm ((l.set i (l.get ⟨j, hj⟩)).set j (l.get ⟨i, hi⟩)) l := by
  induction l with
  | nil => intro i j hi hj; simp at hi
  | cons x t ih =>
    intro i j hi hj
    cases i with
    | zero =>
      cases j with
      | zero => simp
      | succ j =>
        have hj' : j < t.length := by simpa using hj
        simpa using cons_set_perm t j hj' x
    | succ i =>
      have hi' : i < t.length := by simpa using hi
      cases j with
      | zero => simpa using cons_set_perm t i hi' x
      | succ j =>
        have hj' : j < t.length := by simpa using hj
        simpa using (ih i j hi' hj').cons x

/-- One `listSwap` step is a permutation. -/
theorem listSwap_perm {α : Type} (l : List α) (i j : Nat) :
    List.Perm (listSwap l i j) l := by
  unfold listSwap
  by_cases h : i < l.length ∧ j < l.length
  · rw [dif_pos h]
    exact set_set_perm l i j h.1 h.2
  · rw [dif_neg h]

/-- The whole Fisher–Yates loop is a permutation of its input pool. -/
theorem fyLoop_perm (rand : Nat → Nat) : ∀ (n : Nat) (pool : List String),
    List.Perm (fyLoop rand n pool) pool := by
  intro n
  induction n with
  | zero => intro pool; simp [fyLoop]
  | succ k ih =>
    intro pool
    have h1 := ih (listSwap pool (k + 1) (rand (k + 1) % (k + 2)))
    have h2 := listSwap_perm pool (k + 1) (rand (k + 1) % (k + 2))
    simpa [fyLoop] using h1.trans h2

/-- The shuffled pool is a permutation of the message catalog, for every
random draw sequence. -/
theorem shuffleCongratsMessages_perm (rand : Nat → Nat) :
    List.Perm (shuffleCongratsMessages rand) CONGRATS_MESSAGES :=
  fyLoop_perm rand _ _

/-- The shuffled pool always has the catalog's 10 messages. -/
theorem shuffleCongratsMessages_length (rand : Nat → Nat) :
    (shuffleCongratsMessages rand).length = 10 := by
  have h := (shuffleCongratsMessages_perm rand).length_eq
  rw [h]
  rfl

/-- The shuffled pool never contains a duplicate message. -/
theorem shuffleCongratsMessages_nodup (rand : Nat → Nat) :
    (shuffleCongratsMessages rand).Nodup :=
  (shuffleCongratsMessages_perm rand).symm.nodup (by decide)

/-- Closed form of the animation loop: starting at index `i`, the trace is
the strict alternation countdown/reveal over the winners in order. -/
theorem animLoop_closed_form (pool : List String) (ws : List String) :
    ∀ (i : Nat),
    animLoop pool ws i = (List.range ws.length).flatMap (fun k =>
      [Phase.countdown (i + k),
       Phase.reveal (i + k) (ws.getD k "")
         (pool.getD ((i + k) % pool.length) "")]) := by
  induction ws with
  | nil => intro i; simp [animLoop]
  | cons u rest ih =>
    intro i
    have hmap : ((List.range rest.length).map Nat.succ).flatMap
        (fun k => [Phase.countdown (i + k),
          Phase.reveal (i + k) ((u :: rest).getD k "")
            (pool.getD ((i + k) % pool.length) "")])
        = (List.range rest.length).flatMap
        (fun k => [Phase.countdown ((i + 1) + k),
          Phase.reveal ((i + 1) + k) (rest.getD k "")
            (pool.getD (((i + 1) + k) % pool.length) "")]) := by
      rw [List.flatMap_map]
      congr 1
      funext k
      have hadd : i + (k + 1) = (i + 1) + k := by omega
      simp only [Function.comp_apply, Nat.succ_eq_add_one, List.getD_cons_succ]
      rw [hadd]
    rw [show animLoop pool (u :: rest) i
        = Phase.countdown i :: Phase.reveal i u (pool.getD (i % pool.length) "")
          :: animLoop pool rest (i + 1) from rfl,
      ih (i + 1), List.length_cons, List.range_succ_eq_map,
      List.flatMap_cons, hmap]
    simp

/-- The animation trace holds exactly one countdown phase per winner. -/
theorem animLoop_countP_countdown (pool : List String) (ws : List String) :
    ∀ (i : Nat),
    (animLoop pool ws i).countP (fun p => p.isCountdown) = ws.length := by
  induction ws with
  | nil => intro i; simp [animLoop]
  | cons u rest ih =>
    intro i
    have h1 : Phase.isCountdown (Phase.countdown i) = true := rfl
    have h2 : ∀ (s c : String), Phase.isCountdown (Phase.reveal i s c) = false :=
      fun _ _ => rfl
    simp [animLoop, List.countP_cons, h1, h2, ih (i + 1)]

/-- The animation trace holds exactly one reveal phase per winner. -/
theorem animLoop_countP_reveal (pool : List String) (ws : List String) :
    ∀ (i : Nat),
    (animLoop pool ws i).countP (fun p => p.isReveal) = ws.length := by
  induction ws with
  | nil => intro i; simp [animLoop]
  | cons u rest ih =>
    intro i
    have h1 : Phase.isReveal (Phase.countdown i) = false := rfl
    have h2 : ∀ (s c : String), Phase.isReveal (Phase.reveal i s c) = true :=
      fun _ _ => rfl
    simp [animLoop, List.countP_cons, h1, h2, ih (i + 1)]

/-- Reading off the first `m` positions of a list is its `m`-prefix. -/
theorem map_getD_range_eq_take {α : Type} (l : List α) (d : α) :
    ∀ (m : Nat), m ≤ l.length →
      (List.range m).map (fun k => l.getD k d) = l.take m := by
  intro m
  induction m with
  | zero => intro _; simp
  | succ k ih =>
    intro hm
    have hlt : k < l.length := hm
    rw [List.range_succ, List.map_append, ih (Nat.le_of_succ_le hm),
      List.take_succ]
    simp [List.getD_eq_getElem l d hlt, List.getElem?_eq_getElem hlt]

/-- C6: for every winner list of length `N` and every random draw
sequence, the reveal sequencer's trace is exactly the strict alternation
countdown 0, reveal 0, countdown 1, reveal 1, … over the winners in list
order, where winner `k` gets message `pool[k % poolSize]` of the shuffled
pool (so messages repeat cyclically only past the catalog size); it
performs exactly `N` countdown phases and exactly `N` reveal phases; and
the messages assigned to the first `min N catalogSize` winners are
pairwise distinct. -/
theorem claim6_reveal_sequencer (winners : List String) (rand : Nat → Nat) :
    runSearchingAnimation winners rand
      = (List.range winners.length).flatMap (fun k =>
          [Phase.countdown k,
           Phase.reveal k (winners.getD k "")
             ((shuffleCongratsMessages rand).getD
               (k % (shuffleCongratsMessages rand).length) "")]) ∧
    (runSearchingAnimation winners rand).countP (fun p => p.isCountdown)
      = winners.length ∧
    (runSearchingAnimation winners rand).countP (fun p => p.isReveal)
      = winners.length ∧
    ((List.range (min winners.length CONGRATS_MESSAGES.length)).map
      (fun k => (shuffleCongratsMessages rand).getD
        (k % (shuffleCongratsMessages rand).length) "")).Nodup := by
  refine ⟨?_, ?_, ?_, ?_⟩
  · have h := animLoop_closed_form (shuffleCongratsMessages rand) winners 0
    simpa [runSearchingAnimation] using h
  · have h := animLoop_countP_countdown (shuffleCongratsMessages rand) winners 0
    simpa [runSearchingAnimation] using h
  · have h := animLoop_countP_reveal (shuffleCongratsMessages rand) winners 0
    simpa [runSearchingAnimation] using h
  · have hlen : (shuffleCongratsMessages rand).length = 10 :=
      shuffleCongratsMessages_length rand
    have hmin : min winners.length CONGRATS_MESSAGES.length
        ≤ (shuffleCongratsMessages rand).length := by
      rw [hlen]
      exact le_trans (Nat.min_le_right _ _) (by decide)
    have hcong : (List.range (min winners.length CONGRATS_MESSAGES.length)).map
        (fun k => (shuffleCongratsMessages rand).getD
          (k % (shuffleCongratsMessages rand).length) "")
        = (List.range (min winners.length CONGRATS_MESSAGES.length)).map
          (fun k => (shuffleCongratsMessages rand).getD k "") := by
      apply List.map_congr_left
      intro k hk
      have hk' := List.mem_range.mp hk
      rw [Nat.mod_eq_of_lt (lt_of_lt_of_le hk' hmin)]
    rw [hcong, map_getD_range_eq_take _ "" _ hmin]
    exact (shuffleCongratsMessages_nodup rand).sublist (List.take_sublist _ _)

end Givegram
